import Mathlib

/-!
Verification of the sam-contract-fetcher pipeline.

This file gives a shallow embedding of the data pipeline of the
repository: the JSON-shaped values the SAM.gov API returns, the record
normalizer `process_contracts` (src/fetcher.py, lines 84-120), the
multi-organization-code fetch-and-deduplicate loop `fetch_contracts`
(src/fetcher.py, lines 15-81), the filename generator `generate_filename`
and the orchestrator `run` (src/main.py), and the BigQuery row
preparation of `save_to_bigquery` (src/storage.py).

Python dictionaries coming from parsed JSON are modelled as association
lists `List (String × Json)`; a Python function that can raise becomes an
`Option`-valued Lean function, `none` standing for a raised exception.
-/

/-- JSON values as Python represents them after `json` parsing:
`None`, `str`, `int` numbers, `bool`, `list`, `dict`. -/
inductive Json where
  | null : Json
  | str (s : String) : Json
  | num (n : Int) : Json
  | bool (b : Bool) : Json
  | arr (xs : List Json) : Json
  | obj (kvs : List (String × Json)) : Json

/-- A Python dict obtained from a parsed JSON object. -/
abbrev Item := List (String × Json)

/-- Python truthiness of a JSON-shaped value: `None`, `""`, `0`, `False`,
`[]` and `{}` are falsy, everything else is truthy. -/
def Json.truthy : Json → Bool
  | Json.null => false
  | Json.str s => !(s == "")
  | Json.num n => !(n == 0)
  | Json.bool b => b
  | Json.arr xs => !xs.isEmpty
  | Json.obj kvs => !kvs.isEmpty

/-- Hashable (set-insertable) JSON scalars: the values that may enter the
`seen_notice_ids` set without Python raising a TypeError. -/
inductive Scalar where
  | null : Scalar
  | str (s : String) : Scalar
  | num (n : Int) : Scalar
  | bool (b : Bool) : Scalar
deriving DecidableEq

/-- Project a JSON value to a hashable scalar; lists and dicts are
unhashable in Python, so they project to `none`. -/
def Json.toScalar? : Json → Option Scalar
  | Json.null => some Scalar.null
  | Json.str s => some (Scalar.str s)
  | Json.num n => some (Scalar.num n)
  | Json.bool b => some (Scalar.bool b)
  | Json.arr _ => none
  | Json.obj _ => none

/-- Lookup in a Python dict: `d[k]` present test, first binding wins
(genuine dicts have distinct keys). -/
def dictGet : Item → String → Option Json
  | [], _ => none
  | (k, v) :: rest, key => if k == key then some v else dictGet rest key

/-- Python `item.get(key, "")`. -/
def pyGetD (item : Item) (k : String) : Json :=
  (dictGet item k).getD (Json.str "")

/-- Python `x or dflt` on a JSON-shaped value. -/
def pyOr (v dflt : Json) : Json := if v.truthy then v else dflt

/-- Python `point_of_contact[0] if point_of_contact else \x7b\x7d`
(src/fetcher.py line 100): falsy values give an empty dict; a truthy list
gives its head; a truthy string gives its first character (a string,
which then fails attribute lookup); any other truthy value raises
(TypeError or KeyError on indexing), modelled as `none`. -/
def pyIndexZero (poc : Json) : Option Json :=
  if poc.truthy then
    match poc with
    | Json.arr (x :: _) => some x
    | Json.str s => some (Json.str (s.take 1))
    | _ => none
  else some (Json.obj [])

/-- Python `v.get(key, "")` called as an attribute on an arbitrary value:
only a dict has a `get` attribute; any other value raises AttributeError,
modelled as `none`. -/
def attrGet (v : Json) (k : String) : Option Json :=
  match v with
  | Json.obj kvs => some ((dictGet kvs k).getD (Json.str ""))
  | _ => none

/-- The flat record literal built in src/fetcher.py lines 102-118, in
source key order, with the four nested-lookup results passed in. -/
def normalRecord (item : Item) (city st em ph : Json) : Item :=
  [("notice_id", pyGetD item "noticeId"),
   ("title", pyGetD item "title"),
   ("solicitation_number", pyGetD item "solicitationNumber"),
   ("posted_date", pyGetD item "postedDate"),
   ("response_deadline", pyGetD item "responseDeadLine"),
   ("type", pyGetD item "type"),
   ("naics_code", pyGetD item "naicsCode"),
   ("active", pyGetD item "active"),
   ("organization", pyGetD item "fullParentPathName"),
   ("office_city", city),
   ("office_state", st),
   ("contact_email", em),
   ("contact_phone", ph),
   ("ui_link", pyGetD item "uiLink"),
   ("set_aside", pyGetD item "typeOfSetAsideDescription")]

/-- One iteration of the loop body of `process_contracts`
(src/fetcher.py lines 96-118). `none` models a raised exception. -/
def processItem (item : Item) : Option Item := do
  let officeAddress := pyOr ((dictGet item "officeAddress").getD Json.null) (Json.obj [])
  let poc := pyOr ((dictGet item "pointOfContact").getD Json.null) (Json.arr [])
  let fc ← pyIndexZero poc
  let city ← attrGet officeAddress "city"
  let st ← attrGet officeAddress "state"
  let em ← attrGet fc "email"
  let ph ← attrGet fc "phone"
  some (normalRecord item city st em ph)

/-- `process_contracts` (src/fetcher.py lines 84-120): normalize each raw
item in order; an exception anywhere aborts the whole call. -/
def process_contracts : List Item → Option (List Item)
  | [] => some []
  | item :: rest => do
    let r ← processItem item
    let rs ← process_contracts rest
    some (r :: rs)

/-- Query parameters of one request issued by `fetch_contracts`
(src/fetcher.py lines 50-57). -/
structure Params where
  api_key : String
  organizationCode : String
  postedFrom : String
  postedTo : String
  active : String
  limit : Nat
deriving DecidableEq

/-- Outcome of one `requests.get` call in the fetch loop:
a raised transport-level exception (connection error or timeout),
a response with a non-200 status, or a 200 response whose
`data.get("opportunitiesData", [])` is the given list of items. -/
inductive FetchOutcome where
  | transportError : FetchOutcome
  | httpError (status : Nat) (text : String) : FetchOutcome
  | ok (opportunities : List Item) : FetchOutcome

/-- The `noticeId` of a raw opportunity as Python sees it:
`opp.get("noticeId")`, with `None` for an absent key. -/
def nidOf (opp : Item) : Json := (dictGet opp "noticeId").getD Json.null

/-- The inner dedup loop of `fetch_contracts` (src/fetcher.py lines
71-75) over one response, threading the `seen_notice_ids` set and the
`all_opportunities` accumulator.  A truthy unhashable `noticeId` raises
a TypeError at the set-membership test, modelled as `none`. -/
def dedupList : List Item → List Scalar → List Item → Option (List Scalar × List Item)
  | [], seen, acc => some (seen, acc)
  | opp :: rest, seen, acc =>
    if (nidOf opp).truthy then
      match (nidOf opp).toScalar? with
      | none => none
      | some k =>
        if k ∈ seen then dedupList rest seen acc
        else dedupList rest (k :: seen) (acc ++ [opp])
    else dedupList rest seen acc

/-- The per-organization-code loop of `fetch_contracts` (src/fetcher.py
lines 47-79): a transport-level exception propagates and aborts the whole
call; a non-200 status only logs a warning and contributes nothing; a 200
response is deduplicated into the shared accumulator. -/
def fetchGo : List FetchOutcome → List Scalar → List Item → Option (List Scalar × List Item)
  | [], seen, acc => some (seen, acc)
  | FetchOutcome.transportError :: _, _, _ => none
  | FetchOutcome.httpError _ _ :: rest, seen, acc => fetchGo rest seen acc
  | FetchOutcome.ok opps :: rest, seen, acc =>
    match dedupList opps seen acc with
    | none => none
    | some (seen2, acc2) => fetchGo rest seen2 acc2

/-- Concatenation, in iteration order, of the opportunity lists of the
200 responses among a sequence of outcomes. -/
def okContents : List FetchOutcome → List Item
  | [] => []
  | FetchOutcome.ok l :: rest => l ++ okContents rest
  | _ :: rest => okContents rest

/-- Python falsiness of an optional string argument:
`not posted_from` holds for `None` and for `""`. -/
def optFalsy : Option String → Bool
  | none => true
  | some s => s == ""

/-- The date-defaulting step of `fetch_contracts` (src/fetcher.py lines
37-41): when either bound is missing or empty, BOTH bounds become
yesterday, formatted `MM/DD/YYYY` (the `yesterday` string is passed in,
standing for `(datetime.now() - timedelta(days=1)).strftime("%m/%d/%Y")`). -/
def effectiveDates (yesterday : String) (pf pt : Option String) : String × String :=
  if optFalsy pf || optFalsy pt then (yesterday, yesterday)
  else (pf.getD "", pt.getD "")

/-- The sequence of requests `fetch_contracts` issues: one per
organization code (default `["070"]`), all with the effective date pair,
`active = "true"` and `limit = 200`. -/
def requestsOf (api_key yesterday : String) (pf pt : Option String)
    (org_codes : Option (List String)) : List Params :=
  let eff := effectiveDates yesterday pf pt
  (org_codes.getD ["070"]).map fun c =>
    { api_key := api_key, organizationCode := c, postedFrom := eff.1,
      postedTo := eff.2, active := "true", limit := 200 }

/-- Return value of `fetch_contracts`: the merged unique opportunities
and the echoed effective date bounds. -/
structure FetchResult where
  opportunities : List Item
  posted_from : String
  posted_to : String

/-- `fetch_contracts` (src/fetcher.py lines 15-81).  The network is
modelled by `net`, mapping each issued request to its outcome; `none`
models the call raising an exception. -/
def fetch_contracts (api_key yesterday : String) (pf pt : Option String)
    (org_codes : Option (List String)) (net : Params → FetchOutcome) :
    Option FetchResult :=
  let eff := effectiveDates yesterday pf pt
  match fetchGo ((requestsOf api_key yesterday pf pt org_codes).map net) [] [] with
  | none => none
  | some (_, opps) => some ⟨opps, eff.1, eff.2⟩

/-! Concrete scenarios used by the claim witnesses and counterexamples. -/

/-- Two organization codes A and B whose responses share noticeId n1. -/
def w1ItemA : Item := [("noticeId", Json.str "n1"), ("title", Json.str "fromA")]

def w1ItemB1 : Item := [("noticeId", Json.str "n1"), ("title", Json.str "fromB")]

def w1ItemB2 : Item := [("noticeId", Json.str "n2")]

def w1Net : Params → FetchOutcome := fun p =>
  if p.organizationCode == "A" then FetchOutcome.ok [w1ItemA]
  else FetchOutcome.ok [w1ItemB1, w1ItemB2]

def w1Res : FetchResult := ⟨[w1ItemA, w1ItemB2], "01/02/2025", "01/03/2025"⟩

/-- One response holding a record without noticeId and a record with an
empty noticeId besides a normal record: only the normal record is kept. -/
def w6Net : Params → FetchOutcome := fun _ =>
  FetchOutcome.ok
    [[("noticeId", Json.str "n1")],
     [("title", Json.str "no id")],
     [("noticeId", Json.str "")]]

def w6Res : FetchResult :=
  ⟨[[("noticeId", Json.str "n1")]], "10/11/2025", "10/11/2025"⟩

/-- Three organization codes; code B suffers a transport-level failure
(connection error or timeout), A and C succeed with one record each. -/
def c3Net : Params → FetchOutcome := fun p =>
  if p.organizationCode == "A" then FetchOutcome.ok [[("noticeId", Json.str "a1")]]
  else if p.organizationCode == "B" then FetchOutcome.transportError
  else FetchOutcome.ok [[("noticeId", Json.str "c1")]]

/-- Code B answers 500 in the failing run and an empty 200 response in
the reference run; A and C succeed with one record each in both. -/
def w3NetErr : Params → FetchOutcome := fun p =>
  if p.organizationCode == "B" then FetchOutcome.httpError 500 "server error"
  else if p.organizationCode == "A" then FetchOutcome.ok [[("noticeId", Json.str "x1")]]
  else FetchOutcome.ok [[("noticeId", Json.str "x2")]]

def w3NetOk : Params → FetchOutcome := fun p =>
  if p.organizationCode == "B" then FetchOutcome.ok []
  else if p.organizationCode == "A" then FetchOutcome.ok [[("noticeId", Json.str "x1")]]
  else FetchOutcome.ok [[("noticeId", Json.str "x2")]]

/-- Network and expected result for the one-sided date-default witness:
posted_from supplied, posted_to missing. -/
def w10Net : Params → FetchOutcome := fun _ => FetchOutcome.ok []

def w10Res : FetchResult := ⟨[], "02/28/2025", "02/28/2025"⟩

/-- Is a JSON value a string? -/
def Json.isStr : Json → Bool
  | Json.str _ => true
  | _ => false

/-- The eleven output fields of the normalizer that copy a top-level
source field directly, paired with the source key each one reads
(src/fetcher.py lines 103-111 and 116-117). -/
def directFields : List (String × String) :=
  [("notice_id", "noticeId"),
   ("title", "title"),
   ("solicitation_number", "solicitationNumber"),
   ("posted_date", "postedDate"),
   ("response_deadline", "responseDeadLine"),
   ("type", "type"),
   ("naics_code", "naicsCode"),
   ("active", "active"),
   ("organization", "fullParentPathName"),
   ("ui_link", "uiLink"),
   ("set_aside", "typeOfSetAsideDescription")]

/-- A raw item whose active flag is the JSON boolean true. -/
def c5Item : Item := [("active", Json.bool true)]

def c5Rec : Item :=
  normalRecord c5Item (Json.str "") (Json.str "") (Json.str "") (Json.str "")

/-- A raw item exercising the defensive defaults: officeAddress and
pointOfContact absent, one ordinary field present. -/
def w2Item : Item := [("title", Json.str "Road maintenance")]

def w2Rec : Item :=
  normalRecord w2Item (Json.str "") (Json.str "") (Json.str "") (Json.str "")

/-- The fixed key list of a normalized record, in output order
(src/fetcher.py lines 102-118). -/
def recordKeys : List String :=
  ["notice_id", "title", "solicitation_number", "posted_date",
   "response_deadline", "type", "naics_code", "active", "organization",
   "office_city", "office_state", "contact_email", "contact_phone",
   "ui_link", "set_aside"]

/-- A raw item carrying an extra unknown field besides its noticeId. -/
def w8Item : Item :=
  [("noticeId", Json.str "n9"), ("unknownField", Json.num 7)]

def w8Rec : Item :=
  normalRecord w8Item (Json.str "") (Json.str "") (Json.str "") (Json.str "")

/-- Gregorian leap year, as the `datetime` calendar has it. -/
def isLeap (y : Nat) : Bool := (y % 4 == 0 && y % 100 != 0) || y % 400 == 0

def daysInMonth (y m : Nat) : Nat :=
  if m = 2 then (if isLeap y then 29 else 28)
  else if m = 4 ∨ m = 6 ∨ m = 9 ∨ m = 11 then 30 else 31

def digitsVal (cs : List Char) : Nat :=
  cs.foldl (fun a c => a * 10 + (c.toNat - 48)) 0

def allDigits (cs : List Char) : Bool := cs.all Char.isDigit

/-- Split a character list on the slash character. -/
def splitSlash : List Char → List (List Char)
  | [] => [[]]
  | c :: rest =>
    if c = '/' then [] :: splitSlash rest
    else
      match splitSlash rest with
      | [] => [[c]]
      | g :: gs => (c :: g) :: gs

/-- `datetime.strptime(s, "%m/%d/%Y")`, returning (year, month, day):
month and day take one or two digits, the year exactly four; the value
ranges come from the strptime regular expressions (month 1-12, day 1-31)
plus the datetime constructor checks (day within the month, year at
least 1).  Any failure — pattern mismatch, leftover text, out-of-range
component — raises ValueError, modelled as `none`. -/
def parseMMDDYYYY (s : String) : Option (Nat × Nat × Nat) :=
  match splitSlash s.data with
  | [ms, ds, ys] =>
    if allDigits ms ∧ allDigits ds ∧ allDigits ys ∧
        1 ≤ ms.length ∧ ms.length ≤ 2 ∧ 1 ≤ ds.length ∧ ds.length ≤ 2 ∧
        ys.length = 4 then
      let m := digitsVal ms
      let d := digitsVal ds
      let y := digitsVal ys
      if 1 ≤ m ∧ m ≤ 12 ∧ 1 ≤ d ∧ d ≤ daysInMonth y m ∧ 1 ≤ y then
        some (y, m, d)
      else none
    else none
  | _ => none

/-- Two-digit zero padding, as glibc strftime does for %m and %d. -/
def pad2 (n : Nat) : String := if n < 10 then "0" ++ toString n else toString n

/-- `date_obj.strftime("%Y%m%d")`: glibc prints the year unpadded and
month and day as two digits. -/
def fmtYYYYMMDD (d : Nat × Nat × Nat) : String :=
  toString d.1 ++ pad2 d.2.1 ++ pad2 d.2.2

/-- `generate_filename` (src/main.py lines 42-55).  `nowStamp` stands
for `datetime.now().strftime("%Y%m%d_%H%M%S")`, the fallback timestamp.
posted_from is parsed first; only when the two strings differ is
posted_to parsed as well; a ValueError from either parse falls back to
the timestamp name. -/
def generate_filename (nowStamp : String) (posted_from posted_to : String) : String :=
  match parseMMDDYYYY posted_from with
  | none => "contracts_" ++ nowStamp ++ ".json"
  | some d =>
    if posted_from ≠ posted_to then
      match parseMMDDYYYY posted_to with
      | none => "contracts_" ++ nowStamp ++ ".json"
      | some d2 =>
        "contracts_" ++ fmtYYYYMMDD d ++ "_to_" ++ fmtYYYYMMDD d2 ++ ".json"
    else "contracts_" ++ fmtYYYYMMDD d ++ ".json"

/-- The per-field date conversion of save_to_bigquery (src/storage.py
lines 58-59): a missing or falsy value maps to a SQL NULL (Json.null
here); a truthy value is sliced to its first ten elements, which
succeeds for strings and lists and raises TypeError otherwise. -/
def bqDate (c : Item) (key : String) : Option Json :=
  match dictGet c key with
  | none => some Json.null
  | some v =>
    if v.truthy then
      match v with
      | Json.str s => some (Json.str (s.take 10))
      | Json.arr xs => some (Json.arr (xs.take 10))
      | _ => none
    else some Json.null

/-- One row prepared by save_to_bigquery (src/storage.py lines 56-78),
in source key order. -/
def bqRow (c : Item) : Option Item := do
  let pd ← bqDate c "posted_date"
  let dl ← bqDate c "response_deadline"
  some [("notice_id", pyGetD c "notice_id"),
        ("title", pyGetD c "title"),
        ("solicitation_number", pyGetD c "solicitation_number"),
        ("posted_date", pd),
        ("response_deadline", dl),
        ("type", pyGetD c "type"),
        ("naics_code", pyGetD c "naics_code"),
        ("active", pyGetD c "active"),
        ("organization", pyGetD c "organization"),
        ("office_city", pyGetD c "office_city"),
        ("office_state", pyGetD c "office_state"),
        ("contact_email", pyGetD c "contact_email"),
        ("contact_phone", pyGetD c "contact_phone"),
        ("ui_link", pyGetD c "ui_link"),
        ("set_aside", pyGetD c "set_aside")]

/-- The row list save_to_bigquery builds and hands to insert_rows_json
(src/storage.py lines 55-81). -/
def save_to_bigquery_rows : List Item → Option (List Item)
  | [] => some []
  | c :: rest => do
    let r ← bqRow c
    let rs ← save_to_bigquery_rows rest
    some (r :: rs)

/-- A normalized record with a timestamp posted_date and an empty
response_deadline, and the row the warehouse sink prepares from it. -/
def w9Contract : Item :=
  [("notice_id", Json.str "n1"),
   ("posted_date", Json.str "2025-11-05T08:00:00-05:00"),
   ("response_deadline", Json.str "")]

def w9Row : Item :=
  [("notice_id", Json.str "n1"), ("title", Json.str ""),
   ("solicitation_number", Json.str ""),
   ("posted_date", Json.str "2025-11-05"), ("response_deadline", Json.null),
   ("type", Json.str ""), ("naics_code", Json.str ""),
   ("active", Json.str ""), ("organization", Json.str ""),
   ("office_city", Json.str ""), ("office_state", Json.str ""),
   ("contact_email", Json.str ""), ("contact_phone", Json.str ""),
   ("ui_link", Json.str ""), ("set_aside", Json.str "")]

/-- The side-effecting steps of the orchestrator, in the order
src/main.py lines 96-142 attempts them. -/
inductive Event where
  | localSave : Event
  | gcsUpload : Event
  | bigqueryInsert : Event
  | removeFile : Event
  | emailSend : Event
deriving DecidableEq

/-- Outcomes of the collaborators of one `run` invocation: what
`fetch_contracts(API_KEY)` does (`none` = raises), whether email sending
is configured on, and whether each effectful step succeeds (`false` =
the step raises, or for the email step returns False). -/
structure RunEnv where
  send_emails : Bool
  fetchResult : Option (List Item × String × String)
  localOk : Bool
  gcsOk : Bool
  bqOk : Bool
  emailOk : Bool
  removeOk : Bool

/-- Did the fetch return a non-empty contract list? -/
def hasContracts (env : RunEnv) : Bool :=
  match env.fetchResult with
  | some (raw, _, _) => !raw.isEmpty
  | none => false

/-- `run` (src/main.py lines 58-155), returning the exit status, the
steps attempted, and the warning lines logged.  Config validation
returns 1 before any step; an exception in fetch, processing, the local
save, the GCS upload or the file removal reaches the top-level handler
(exit 1); only the BigQuery insert is individually caught (a warning,
run continues), and an email failure only logs a warning. -/
def run (apiKeySet bucketSet : Bool) (env : RunEnv) :
    Nat × List Event × List String :=
  if !apiKeySet then (1, [], ["SAM_API_KEY not set"])
  else if !bucketSet then (1, [], ["GCS_BUCKET_NAME not set"])
  else
    match env.fetchResult with
    | none => (1, [], ["FATAL ERROR"])
    | some (raw, _, _) =>
      if raw.isEmpty then
        if env.send_emails then (0, [Event.emailSend], []) else (0, [], [])
      else
        match process_contracts raw with
        | none => (1, [], ["FATAL ERROR"])
        | some _ =>
          if !env.localOk then (1, [Event.localSave], ["FATAL ERROR"])
          else if !env.gcsOk then
            (1, [Event.localSave, Event.gcsUpload], ["FATAL ERROR"])
          else
            let bqWarn := if env.bqOk then [] else ["BigQuery upload failed but continuing"]
            if !env.removeOk then
              (1, [Event.localSave, Event.gcsUpload, Event.bigqueryInsert,
                   Event.removeFile], bqWarn ++ ["FATAL ERROR"])
            else if env.send_emails then
              (0, [Event.localSave, Event.gcsUpload, Event.bigqueryInsert,
                   Event.removeFile, Event.emailSend],
                bqWarn ++ (if env.emailOk then [] else ["Email notification failed"]))
            else
              (0, [Event.localSave, Event.gcsUpload, Event.bigqueryInsert,
                   Event.removeFile], bqWarn)

/-- An environment where everything works except the GCS upload. -/
def c4Env : RunEnv :=
  { send_emails := true,
    fetchResult := some ([[("noticeId", Json.str "n1")]], "10/11/2025", "10/11/2025"),
    localOk := true, gcsOk := false, bqOk := true, emailOk := true,
    removeOk := true }

/-- An environment where the BigQuery insert and the email send fail. -/
def w4Env : RunEnv :=
  { send_emails := true,
    fetchResult := some ([[("noticeId", Json.str "n1")]], "10/11/2025", "10/11/2025"),
    localOk := true, gcsOk := true, bqOk := false, emailOk := false,
    removeOk := true }

/-! The lemmas and claim theorems. -/

theorem Json.toScalar?_inj {a b : Json} {k : Scalar}
    (ha : a.toScalar? = some k) (hb : b.toScalar? = some k) : a = b := by
  cases a <;> cases b <;>
    simp only [Json.toScalar?, Option.some.injEq, reduceCtorEq] at ha hb <;>
    subst ha <;> cases hb <;> rfl

theorem dedupList_append (xs ys : List Item) (seen : List Scalar) (acc : List Item) :
    dedupList (xs ++ ys) seen acc =
      match dedupList xs seen acc with
      | none => none
      | some (s2, a2) => dedupList ys s2 a2 := by
  induction xs generalizing seen acc with
  | nil => simp [dedupList]
  | cons opp rest ih =>
    simp only [List.cons_append, dedupList]
    by_cases ht : (nidOf opp).truthy = true
    · rw [if_pos ht, if_pos ht]
      cases hk : (nidOf opp).toScalar? with
      | none => rfl
      | some k =>
        dsimp only
        by_cases hin : k ∈ seen
        · rw [if_pos hin, if_pos hin]; exact ih seen acc
        · rw [if_neg hin, if_neg hin]; exact ih (k :: seen) (acc ++ [opp])
    · rw [if_neg ht, if_neg ht]; exact ih seen acc

theorem fetchGo_eq_dedupList (outs : List FetchOutcome) (seen : List Scalar)
    (acc : List Item) (r : List Scalar × List Item)
    (h : fetchGo outs seen acc = some r) :
    dedupList (okContents outs) seen acc = some r := by
  induction outs generalizing seen acc with
  | nil => simpa [fetchGo, okContents, dedupList] using h
  | cons o rest ih =>
    cases o with
    | transportError => exact absurd h (by simp [fetchGo])
    | httpError s t => exact ih seen acc (by simpa [fetchGo] using h)
    | ok l =>
      simp only [fetchGo] at h
      simp only [okContents, dedupList_append]
      cases hd : dedupList l seen acc with
      | none => rw [hd] at h; exact absurd h (by simp)
      | some p =>
        rw [hd] at h
        exact ih p.1 p.2 (by simpa using h)

/-- Main invariant of the dedup loop: the accumulated output has pairwise
distinct `noticeId` keys, every output record has its key in the final
seen set, and each newly appended record is truthy-keyed, was unseen on
entry, and is the FIRST record with its key among the processed items. -/
theorem dedupList_invariant (items : List Item) (seen seen' : List Scalar)
    (acc out : List Item)
    (hnd : (acc.map nidOf).Nodup)
    (hseen : ∀ a ∈ acc, ∃ k, (nidOf a).toScalar? = some k ∧ k ∈ seen)
    (h : dedupList items seen acc = some (seen', out)) :
    (out.map nidOf).Nodup ∧
    (∀ a ∈ out, ∃ k, (nidOf a).toScalar? = some k ∧ k ∈ seen') ∧
    ∃ extra, out = acc ++ extra ∧
      ∀ opp ∈ extra, (nidOf opp).truthy = true ∧
        ∃ k, (nidOf opp).toScalar? = some k ∧ k ∉ seen ∧
          List.find? (fun o => decide ((nidOf o).toScalar? = some k)) items = some opp := by
  induction items generalizing seen acc with
  | nil =>
    simp only [dedupList, Option.some.injEq, Prod.mk.injEq] at h
    obtain ⟨h1, h2⟩ := h
    subst h1; subst h2
    exact ⟨hnd, fun a ha => hseen a ha, [], by simp, by simp⟩
  | cons opp rest ih =>
    simp only [dedupList] at h
    by_cases ht : (nidOf opp).truthy = true
    · rw [if_pos ht] at h
      cases hk : (nidOf opp).toScalar? with
      | none => rw [hk] at h; exact absurd h (by simp)
      | some k =>
        rw [hk] at h
        dsimp only at h
        by_cases hin : k ∈ seen
        · rw [if_pos hin] at h
          obtain ⟨nd, houts, extra, hext, hprops⟩ := ih seen acc hnd hseen h
          refine ⟨nd, houts, extra, hext, fun o ho => ?_⟩
          obtain ⟨htr, k2, hk2, hk2ns, hfind⟩ := hprops o ho
          refine ⟨htr, k2, hk2, hk2ns, ?_⟩
          rw [List.find?_cons_of_neg, hfind]
          simp only [hk, decide_eq_true_eq, Option.some.injEq]
          intro hkk
          exact hk2ns (hkk ▸ hin)
        · rw [if_neg hin] at h
          have hdisj : ∀ x ∈ acc.map nidOf, x ∉ [opp].map nidOf := by
            intro x hx hx2
            simp only [List.mem_map] at hx
            obtain ⟨a, ha, rfl⟩ := hx
            simp only [List.map_cons, List.map_nil, List.mem_singleton] at hx2
            obtain ⟨ka, hka, hkain⟩ := hseen a ha
            rw [hx2, hk] at hka
            cases hka
            exact hin hkain
          have hnd2 : ((acc ++ [opp]).map nidOf).Nodup := by
            rw [List.map_append]
            exact List.Nodup.append hnd (by simp) hdisj
          have hseen2 : ∀ a ∈ acc ++ [opp],
              ∃ k2, (nidOf a).toScalar? = some k2 ∧ k2 ∈ k :: seen := by
            intro a ha
            rcases List.mem_append.mp ha with ha | ha
            · obtain ⟨ka, hka, hkain⟩ := hseen a ha
              exact ⟨ka, hka, List.mem_cons_of_mem _ hkain⟩
            · simp only [List.mem_singleton] at ha
              subst ha
              exact ⟨k, hk, List.mem_cons_self _ _⟩
          obtain ⟨nd, houts, extra, hext, hprops⟩ := ih (k :: seen) (acc ++ [opp]) hnd2 hseen2 h
          refine ⟨nd, houts, opp :: extra, by rw [hext]; simp, fun o ho => ?_⟩
          rcases List.mem_cons.mp ho with rfl | ho
          · refine ⟨ht, k, hk, hin, ?_⟩
            rw [List.find?_cons_of_pos]
            simp [hk]
          · obtain ⟨htr, k2, hk2, hk2ns, hfind⟩ := hprops o ho
            have hk2seen : k2 ∉ seen := fun hmem => hk2ns (List.mem_cons_of_mem _ hmem)
            refine ⟨htr, k2, hk2, hk2seen, ?_⟩
            rw [List.find?_cons_of_neg, hfind]
            simp only [hk, decide_eq_true_eq, Option.some.injEq]
            intro hkk
            exact hk2ns (hkk ▸ List.mem_cons_self _ _)
    · rw [if_neg ht] at h
      obtain ⟨nd, houts, extra, hext, hprops⟩ := ih seen acc hnd hseen h
      refine ⟨nd, houts, extra, hext, fun o ho => ?_⟩
      obtain ⟨htr, k2, hk2, hk2ns, hfind⟩ := hprops o ho
      refine ⟨htr, k2, hk2, hk2ns, ?_⟩
      rw [List.find?_cons_of_neg, hfind]
      simp only [decide_eq_true_eq]
      intro hkk
      exact ht (Json.toScalar?_inj hkk hk2 ▸ htr)

/-- Structure of the opportunity list `fetch_contracts` returns: keys are
pairwise distinct, every kept record has a truthy `noticeId`, and each
kept record is the first record bearing its `noticeId` among all 200
responses in iteration order. -/
theorem fetch_contracts_opportunities_spec
    (api_key yesterday : String) (pf pt : Option String)
    (org_codes : Option (List String)) (net : Params → FetchOutcome)
    (res : FetchResult)
    (h : fetch_contracts api_key yesterday pf pt org_codes net = some res) :
    (res.opportunities.map nidOf).Nodup ∧
    ∀ opp ∈ res.opportunities, (nidOf opp).truthy = true ∧
      ∃ k, (nidOf opp).toScalar? = some k ∧
        List.find? (fun o => decide ((nidOf o).toScalar? = some k))
          (okContents ((requestsOf api_key yesterday pf pt org_codes).map net)) =
          some opp := by
  unfold fetch_contracts at h
  cases hgo : fetchGo ((requestsOf api_key yesterday pf pt org_codes).map net) [] [] with
  | none => rw [hgo] at h; exact absurd h (by simp)
  | some p =>
    obtain ⟨s2, opps⟩ := p
    rw [hgo] at h
    dsimp only at h
    have hres : res.opportunities = opps := by
      cases h; rfl
    have hd := fetchGo_eq_dedupList _ _ _ _ hgo
    obtain ⟨nd, _, extra, hext, hprops⟩ :=
      dedupList_invariant _ _ _ _ _ (by simp) (by simp) hd
    simp only [List.nil_append] at hext
    subst hext
    rw [hres]
    refine ⟨nd, fun opp ho => ?_⟩
    obtain ⟨htr, k, hk, _, hfind⟩ := hprops opp ho
    exact ⟨htr, k, hk, hfind⟩

/-- Claim C1: for every ordered sequence of organization codes given to
fetch_contracts, the merged result contains each noticeId at most once
(the noticeIds of the kept records are pairwise distinct), and when the
same noticeId appears in the responses of more than one organization
code, the record kept is the first record bearing that noticeId in the
concatenation of the responses in iteration order, so the organization
code processed first wins. -/
theorem C1_fetch_contracts_dedup_first_occurrence_wins
    (api_key yesterday : String) (pf pt : Option String)
    (org_codes : Option (List String)) (net : Params → FetchOutcome)
    (res : FetchResult)
    (h : fetch_contracts api_key yesterday pf pt org_codes net = some res) :
    (res.opportunities.map nidOf).Nodup ∧
    ∀ opp ∈ res.opportunities, ∃ k, (nidOf opp).toScalar? = some k ∧
      List.find? (fun o => decide ((nidOf o).toScalar? = some k))
        (okContents ((requestsOf api_key yesterday pf pt org_codes).map net)) =
        some opp := by
  obtain ⟨nd, hall⟩ :=
    fetch_contracts_opportunities_spec api_key yesterday pf pt org_codes net res h
  exact ⟨nd, fun opp ho => (hall opp ho).2⟩

theorem C1_witness :
    (w1Res.opportunities.map nidOf).Nodup ∧
    ∀ opp ∈ w1Res.opportunities, ∃ k, (nidOf opp).toScalar? = some k ∧
      List.find? (fun o => decide ((nidOf o).toScalar? = some k))
        (okContents ((requestsOf "key" "01/01/2025" (some "01/02/2025")
          (some "01/03/2025") (some ["A", "B"])).map w1Net)) = some opp :=
  C1_fetch_contracts_dedup_first_occurrence_wins "key" "01/01/2025"
    (some "01/02/2025") (some "01/03/2025") (some ["A", "B"]) w1Net w1Res rfl

/-- Claim C6: the dedup key is notice_id, and a record whose noticeId is
missing or empty is excluded from the merged output (every kept record
has a truthy noticeId), so two distinct records lacking a noticeId are
never collapsed into one kept record. -/
theorem C6_fetch_contracts_missing_notice_id_never_collapsed
    (api_key yesterday : String) (pf pt : Option String)
    (org_codes : Option (List String)) (net : Params → FetchOutcome)
    (res : FetchResult)
    (h : fetch_contracts api_key yesterday pf pt org_codes net = some res) :
    (∀ opp ∈ res.opportunities, (nidOf opp).truthy = true) ∧
    (res.opportunities.map nidOf).Nodup := by
  obtain ⟨nd, hall⟩ :=
    fetch_contracts_opportunities_spec api_key yesterday pf pt org_codes net res h
  exact ⟨fun opp ho => (hall opp ho).1, nd⟩

theorem C6_witness :
    (∀ opp ∈ w6Res.opportunities, (nidOf opp).truthy = true) ∧
    (w6Res.opportunities.map nidOf).Nodup :=
  C6_fetch_contracts_missing_notice_id_never_collapsed "key" "10/11/2025"
    none none none w6Net w6Res rfl

/-- Counterexample to claim C3 as stated: with a transport-level failure
on the second of three organization codes, fetch_contracts raises
(result `none`) instead of continuing, and the unique records of the two
codes that succeeded are lost — although the very same network behaviour
restricted to the two succeeding codes would have produced them.  Only a
non-success HTTP status is caught by src/fetcher.py line 76; the
`requests.get` call on line 59 is not wrapped in any try/except. -/
theorem C3_counterexample :
    fetch_contracts "key" "01/01/2025" (some "02/01/2025") (some "02/02/2025")
      (some ["A", "B", "C"]) c3Net = none ∧
    fetch_contracts "key" "01/01/2025" (some "02/01/2025") (some "02/02/2025")
      (some ["A", "C"]) c3Net =
      some ⟨[[("noticeId", Json.str "a1")], [("noticeId", Json.str "c1")]],
        "02/01/2025", "02/02/2025"⟩ :=
  ⟨rfl, rfl⟩

/-- Claim C3 (amended): a per-source NON-SUCCESS HTTP STATUS on any
organization code is recoverable — that code contributes exactly as an
empty successful response would, the fetch continues with the remaining
codes, the merged result still includes the unique records of the codes
that succeeded, and the run does not abort; a transport-level failure,
by contrast, aborts the whole fetch (see the counterexample). -/
theorem C3_http_error_recoverable
    (api_key yesterday : String) (pf pt : Option String)
    (org_codes : Option (List String)) (net net2 : Params → FetchOutcome)
    (s : Nat) (t : String)
    (hagree : ∀ p, net p = net2 p ∨
      (net p = FetchOutcome.httpError s t ∧ net2 p = FetchOutcome.ok [])) :
    fetch_contracts api_key yesterday pf pt org_codes net =
      fetch_contracts api_key yesterday pf pt org_codes net2 := by
  have key : ∀ (l : List Params) (seen : List Scalar) (acc : List Item),
      fetchGo (l.map net) seen acc = fetchGo (l.map net2) seen acc := by
    intro l
    induction l with
    | nil => intro seen acc; rfl
    | cons p rest ih =>
      intro seen acc
      rcases hagree p with hp | ⟨hp1, hp2⟩
      · rw [List.map_cons, List.map_cons, hp]
        cases hn : net2 p with
        | transportError => rfl
        | httpError s2 t2 => simp only [fetchGo]; exact ih seen acc
        | ok l2 =>
          simp only [fetchGo]
          cases dedupList l2 seen acc with
          | none => rfl
          | some q => exact ih q.1 q.2
      · rw [List.map_cons, List.map_cons, hp1, hp2]
        simp only [fetchGo, dedupList]
        exact ih seen acc
  unfold fetch_contracts
  rw [key (requestsOf api_key yesterday pf pt org_codes) [] []]

theorem C3_witness :
    fetch_contracts "key" "01/01/2025" (some "02/01/2025") (some "02/02/2025")
      (some ["A", "B", "C"]) w3NetErr =
    fetch_contracts "key" "01/01/2025" (some "02/01/2025") (some "02/02/2025")
      (some ["A", "B", "C"]) w3NetOk :=
  C3_http_error_recoverable "key" "01/01/2025" (some "02/01/2025")
    (some "02/02/2025") (some ["A", "B", "C"]) w3NetErr w3NetOk 500 "server error"
    (fun p => by
      by_cases hb : p.organizationCode == "B"
      · exact Or.inr ⟨by simp [w3NetErr, hb], by simp [w3NetOk, hb]⟩
      · exact Or.inl (by simp [w3NetErr, w3NetOk, hb]))

/-- Claim C10: whenever exactly one of posted_from and posted_to is
provided non-empty, fetch_contracts replaces BOTH bounds by yesterday,
silently discarding the supplied bound; the pair echoed back in the
result is the pair every issued request actually used. -/
theorem C10_one_sided_date_defaults_to_yesterday
    (api_key yesterday : String) (pf pt : Option String)
    (org_codes : Option (List String)) (net : Params → FetchOutcome)
    (res : FetchResult)
    (hone : (optFalsy pf = false ∧ optFalsy pt = true) ∨
            (optFalsy pf = true ∧ optFalsy pt = false))
    (h : fetch_contracts api_key yesterday pf pt org_codes net = some res) :
    res.posted_from = yesterday ∧ res.posted_to = yesterday ∧
    ∀ p ∈ requestsOf api_key yesterday pf pt org_codes,
      p.postedFrom = res.posted_from ∧ p.postedTo = res.posted_to := by
  have heff : effectiveDates yesterday pf pt = (yesterday, yesterday) := by
    unfold effectiveDates
    rcases hone with ⟨h1, h2⟩ | ⟨h1, h2⟩ <;> simp [h1, h2]
  unfold fetch_contracts at h
  cases hgo : fetchGo ((requestsOf api_key yesterday pf pt org_codes).map net) [] [] with
  | none => rw [hgo] at h; exact absurd h (by simp)
  | some p =>
    obtain ⟨s2, opps⟩ := p
    rw [hgo] at h
    dsimp only at h
    rw [heff] at h
    cases h
    refine ⟨rfl, rfl, ?_⟩
    intro q hq
    unfold requestsOf at hq
    rw [heff] at hq
    simp only [List.mem_map] at hq
    obtain ⟨c, _, rfl⟩ := hq
    exact ⟨rfl, rfl⟩

theorem C10_witness :
    w10Res.posted_from = "02/28/2025" ∧ w10Res.posted_to = "02/28/2025" ∧
    ∀ p ∈ requestsOf "key" "02/28/2025" (some "03/01/2025") none none,
      p.postedFrom = w10Res.posted_from ∧ p.postedTo = w10Res.posted_to :=
  C10_one_sided_date_defaults_to_yesterday "key" "02/28/2025"
    (some "03/01/2025") none none w10Net w10Res (Or.inl ⟨rfl, rfl⟩) rfl

/-- Counterexample to claim C2 as stated: the normalizer is not total
over arbitrary JSON-shaped input and does not treat a value of
unexpected shape as absent — a truthy non-dict officeAddress (here the
string "x") makes `office_address.get("city", "")` raise AttributeError
in src/fetcher.py line 112, modelled as `none`; the claim instead
demands one flat record with office fields defaulting to "". -/
theorem C2_counterexample :
    process_contracts [[("officeAddress", Json.str "x")]] = none ∧
    processItem [("officeAddress", Json.str "x")] = none :=
  ⟨rfl, rfl⟩

/-- Claim C2 (amended): for every input item whose officeAddress is
absent or null and whose pointOfContact is absent, null, or an empty
list, the normalizer returns (without raising) exactly one flat record
with the office and contact fields equal to the empty string, and any
other optional field that is missing also defaults to the empty string;
a truthy value of unexpected shape for the nested structures, however,
raises instead of being treated as absent (see the counterexample). -/
theorem C2_normalizer_defensive_defaults (item : Item)
    (hoa : dictGet item "officeAddress" = none ∨
           dictGet item "officeAddress" = some Json.null)
    (hpoc : dictGet item "pointOfContact" = none ∨
            dictGet item "pointOfContact" = some Json.null ∨
            dictGet item "pointOfContact" = some (Json.arr [])) :
    processItem item =
      some (normalRecord item (Json.str "") (Json.str "") (Json.str "") (Json.str "")) ∧
    ∀ pr ∈ directFields, dictGet item pr.2 = none →
      dictGet (normalRecord item (Json.str "") (Json.str "") (Json.str "") (Json.str ""))
        pr.1 = some (Json.str "") := by
  constructor
  · have hoa2 : pyOr ((dictGet item "officeAddress").getD Json.null) (Json.obj []) =
        Json.obj [] := by
      rcases hoa with h | h <;> rw [h] <;> rfl
    have hpoc2 : pyOr ((dictGet item "pointOfContact").getD Json.null) (Json.arr []) =
        Json.arr [] := by
      rcases hpoc with h | h | h <;> rw [h] <;> rfl
    simp only [processItem]
    rw [hoa2, hpoc2]
    rfl
  · intro pr hpr hmiss
    fin_cases hpr <;> simp [normalRecord, dictGet, pyGetD, hmiss]

theorem C2_witness :
    (processItem w2Item =
      some (normalRecord w2Item (Json.str "") (Json.str "") (Json.str "") (Json.str "")) ∧
    ∀ pr ∈ directFields, dictGet w2Item pr.2 = none →
      dictGet (normalRecord w2Item (Json.str "") (Json.str "") (Json.str "") (Json.str ""))
        pr.1 = some (Json.str "")) ∧
    dictGet w2Rec "notice_id" = some (Json.str "") ∧
    dictGet w2Rec "title" = some (Json.str "Road maintenance") :=
  ⟨C2_normalizer_defensive_defaults w2Item (Or.inl rfl) (Or.inl rfl), rfl, rfl⟩

/-- Inversion for the normalizer: whenever processItem succeeds, the
produced record is the fixed literal shape for some four nested-lookup
results. -/
theorem processItem_shape (item rec : Item) (h : processItem item = some rec) :
    ∃ city st em ph, rec = normalRecord item city st em ph := by
  simp only [processItem, Option.bind_eq_bind, Option.bind_eq_some,
    Option.some.injEq] at h
  obtain ⟨fc, _, city, _, st, _, em, _, ph, _, hrec⟩ := h
  exact ⟨city, st, em, ph, hrec.symm⟩

/-- Counterexample to claim C5 as stated: a boolean source value is NOT
stringified — `item.get("active", "")` passes the JSON boolean through
unchanged (src/fetcher.py line 110), so the produced record holds a
non-string value for the active field. -/
theorem C5_counterexample :
    process_contracts [c5Item] = some [c5Rec] ∧
    dictGet c5Rec "active" = some (Json.bool true) ∧
    Json.isStr (Json.bool true) = false :=
  ⟨rfl, rfl, rfl⟩

/-- Claim C5 (amended): every directly copied field of a produced record
holds the source value verbatim — defaulting to the empty string only
when the source key is absent — so a numeric or boolean source value
(for example the active flag) appears in the output unconverted, not as
a string. -/
theorem C5_normalizer_passes_values_through (item rec : Item)
    (h : processItem item = some rec) :
    ∀ pr ∈ directFields,
      dictGet rec pr.1 = some ((dictGet item pr.2).getD (Json.str "")) := by
  obtain ⟨city, st, em, ph, rfl⟩ := processItem_shape item rec h
  intro pr hpr
  fin_cases hpr <;> simp [normalRecord, dictGet, pyGetD]

theorem C5_witness :
    dictGet c5Rec "active" = some ((dictGet c5Item "active").getD (Json.str "")) :=
  C5_normalizer_passes_values_through c5Item c5Rec rfl ("active", "active") (by decide)

/-- Claim C8: every record the normalizer produces has exactly the fixed
key list of section 3 of the spec, in source order, regardless of extra
or unknown fields in the input. -/
theorem C8_record_key_set_fixed (items recs : List Item)
    (h : process_contracts items = some recs) :
    ∀ rec ∈ recs, rec.map Prod.fst = recordKeys := by
  induction items generalizing recs with
  | nil =>
    simp only [process_contracts, Option.some.injEq] at h
    subst h; simp
  | cons item rest ih =>
    simp only [process_contracts, Option.bind_eq_bind, Option.bind_eq_some,
      Option.some.injEq] at h
    obtain ⟨r, hr, rs, hrs, hre⟩ := h
    subst hre
    intro rec hrec
    rcases List.mem_cons.mp hrec with rfl | hrec
    · obtain ⟨city, st, em, ph, rfl⟩ := processItem_shape item rec hr
      rfl
    · exact ih rs hrs rec hrec

theorem C8_witness : w8Rec.map Prod.fst = recordKeys :=
  C8_record_key_set_fixed [w8Item] [w8Rec] rfl w8Rec (List.mem_cons_self _ _)

/-- Counterexample to claim C7 as stated: the code compares the two date
STRINGS (src/main.py line 47), not the days they denote; "11/5/2025" and
"11/05/2025" both parse to 2025-11-05 — the date range collapses to a
single day — yet the generated filename is the range form, not
contracts_20251105.json. -/
theorem C7_counterexample :
    parseMMDDYYYY "11/5/2025" = some (2025, 11, 5) ∧
    parseMMDDYYYY "11/05/2025" = some (2025, 11, 5) ∧
    generate_filename "20251012_093000" "11/5/2025" "11/05/2025" =
      "contracts_20251105_to_20251105.json" ∧
    generate_filename "20251012_093000" "11/5/2025" "11/05/2025" ≠
      "contracts_20251105.json" :=
  ⟨rfl, rfl, rfl, by decide⟩

/-- Claim C7 (amended): generate_filename yields the single-day name
contracts_YYYYMMDD.json when the two supplied date STRINGS are equal
(and posted_from parses as MM/DD/YYYY), the range name
contracts_YYYYMMDD_to_YYYYMMDD.json when they differ and both parse,
and falls back to the fetch-timestamp name when posted_from does not
parse, or the strings differ and posted_to does not parse; in
particular posted_from = posted_to = "11/05/2025" yields
contracts_20251105.json and "11/05/2025" with "11/07/2025" yields
contracts_20251105_to_20251107.json. -/
theorem C7_generate_filename_spec (now pf pt : String) :
    (parseMMDDYYYY pf = none →
      generate_filename now pf pt = "contracts_" ++ now ++ ".json") ∧
    (∀ d, parseMMDDYYYY pf = some d → pf = pt →
      generate_filename now pf pt = "contracts_" ++ fmtYYYYMMDD d ++ ".json") ∧
    (∀ d, parseMMDDYYYY pf = some d → pf ≠ pt → parseMMDDYYYY pt = none →
      generate_filename now pf pt = "contracts_" ++ now ++ ".json") ∧
    (∀ d d2, parseMMDDYYYY pf = some d → pf ≠ pt → parseMMDDYYYY pt = some d2 →
      generate_filename now pf pt =
        "contracts_" ++ fmtYYYYMMDD d ++ "_to_" ++ fmtYYYYMMDD d2 ++ ".json") ∧
    generate_filename now "11/05/2025" "11/05/2025" = "contracts_20251105.json" ∧
    generate_filename now "11/05/2025" "11/07/2025" =
      "contracts_20251105_to_20251107.json" := by
  refine ⟨?_, ?_, ?_, ?_, rfl, rfl⟩
  · intro h
    simp [generate_filename, h]
  · intro d hd he
    subst he
    simp [generate_filename, hd]
  · intro d hd hne hn
    simp [generate_filename, hd, hn, hne]
  · intro d d2 hd hne hd2
    simp [generate_filename, hd, hd2, hne]

theorem C7_witness :
    generate_filename "20250101_120000" "bogus" "11/05/2025" =
      "contracts_" ++ "20250101_120000" ++ ".json" :=
  (C7_generate_filename_spec "20250101_120000" "bogus" "11/05/2025").1 rfl

theorem save_to_bigquery_rows_length (contracts rows : List Item)
    (h : save_to_bigquery_rows contracts = some rows) :
    rows.length = contracts.length := by
  induction contracts generalizing rows with
  | nil =>
    simp only [save_to_bigquery_rows, Option.some.injEq] at h
    subst h; rfl
  | cons c rest ih =>
    simp only [save_to_bigquery_rows, Option.bind_eq_bind, Option.bind_eq_some,
      Option.some.injEq] at h
    obtain ⟨r, _, rs, hrs, hre⟩ := h
    subst hre
    simp [ih rs hrs]

theorem save_to_bigquery_rows_mem (contracts rows : List Item) (c row : Item)
    (h : save_to_bigquery_rows contracts = some rows) (hc : c ∈ contracts)
    (hrow : bqRow c = some row) : row ∈ rows := by
  induction contracts generalizing rows with
  | nil => cases hc
  | cons a rest ih =>
    simp only [save_to_bigquery_rows, Option.bind_eq_bind, Option.bind_eq_some,
      Option.some.injEq] at h
    obtain ⟨r, hr, rs, hrs, hre⟩ := h
    subst hre
    rcases List.mem_cons.mp hc with rfl | hc2
    · injection hrow.symm.trans hr with he
      subst he
      exact List.mem_cons_self _ _
    · exact List.mem_cons_of_mem _ (ih rs hrs hc2)

theorem bqDate_of_str (c : Item) (key : String) (s : String)
    (h : dictGet c key = some (Json.str s)) :
    bqDate c key = some (if s = "" then Json.null else Json.str (s.take 10)) := by
  unfold bqDate
  rw [h]
  by_cases he : s = ""
  · subst he; simp [Json.truthy]
  · simp [Json.truthy, he]

/-- Claim C9: the warehouse sink prepares exactly one row per normalized
record, truncating posted_date and response_deadline to their first ten
characters and mapping an empty string to a null date. -/
theorem C9_bigquery_truncates_dates (contracts rows : List Item)
    (h : save_to_bigquery_rows contracts = some rows) :
    rows.length = contracts.length ∧
    ∀ c ∈ contracts, ∀ pd dl : String,
      dictGet c "posted_date" = some (Json.str pd) →
      dictGet c "response_deadline" = some (Json.str dl) →
      ∀ row, bqRow c = some row → row ∈ rows ∧
        dictGet row "posted_date" =
          some (if pd = "" then Json.null else Json.str (pd.take 10)) ∧
        dictGet row "response_deadline" =
          some (if dl = "" then Json.null else Json.str (dl.take 10)) := by
  refine ⟨save_to_bigquery_rows_length contracts rows h, ?_⟩
  intro c hc pd dl hpd hdl row hrow
  refine ⟨save_to_bigquery_rows_mem contracts rows c row h hc hrow, ?_⟩
  have h1 := bqDate_of_str c "posted_date" pd hpd
  have h2 := bqDate_of_str c "response_deadline" dl hdl
  simp only [bqRow, h1, h2, Option.bind_eq_bind, Option.some_bind,
    Option.some.injEq] at hrow
  subst hrow
  constructor <;> simp [dictGet]

theorem C9_witness :
    w9Row ∈ [w9Row] ∧
    dictGet w9Row "posted_date" =
      some (if "2025-11-05T08:00:00-05:00" = "" then Json.null
            else Json.str (String.take "2025-11-05T08:00:00-05:00" 10)) ∧
    dictGet w9Row "response_deadline" =
      some (if "" = "" then Json.null else Json.str (String.take "" 10)) :=
  (C9_bigquery_truncates_dates [w9Contract] [w9Row] rfl).2 w9Contract
    (List.mem_cons_self _ _) "2025-11-05T08:00:00-05:00" "" rfl rfl w9Row rfl

/-- Counterexample to claim C4 as stated: with every collaborator
healthy except the GCS upload, the upload exception reaches the
top-level handler (src/main.py line 104 has no local try/except), so
the warehouse insert and the email notification are never attempted and
the run exits 1 — even though the primary local persistence succeeded. -/
theorem C4_counterexample :
    run true true c4Env = (1, [Event.localSave, Event.gcsUpload], ["FATAL ERROR"]) ∧
    Event.bigqueryInsert ∉ (run true true c4Env).2.1 ∧
    Event.emailSend ∉ (run true true c4Env).2.1 ∧
    (run true true c4Env).1 ≠ 0 :=
  ⟨rfl, by decide, by decide, by decide⟩

/-- Claim C4 (amended): the warehouse (BigQuery) and email sink
failures are each independently caught — they change neither the exit
status nor the steps attempted, only a logged warning — but an object
storage (GCS) upload failure is NOT independently caught: whenever the
fetch produced contracts, a failing upload makes the run exit 1 and
prevents both the warehouse insert and the email notification from
being attempted. -/
theorem C4_sink_failure_policy (apiKeySet bucketSet : Bool) (env : RunEnv) :
    (run apiKeySet bucketSet { env with bqOk := false }).1 =
      (run apiKeySet bucketSet { env with bqOk := true }).1 ∧
    (run apiKeySet bucketSet { env with bqOk := false }).2.1 =
      (run apiKeySet bucketSet { env with bqOk := true }).2.1 ∧
    (run apiKeySet bucketSet { env with emailOk := false }).1 =
      (run apiKeySet bucketSet { env with emailOk := true }).1 ∧
    (run apiKeySet bucketSet { env with emailOk := false }).2.1 =
      (run apiKeySet bucketSet { env with emailOk := true }).2.1 ∧
    (env.gcsOk = false → hasContracts env = true →
      (run apiKeySet bucketSet env).1 = 1 ∧
      Event.bigqueryInsert ∉ (run apiKeySet bucketSet env).2.1 ∧
      Event.emailSend ∉ (run apiKeySet bucketSet env).2.1) := by
  obtain ⟨se, fr, lo, go, bo, eo, ro⟩ := env
  cases apiKeySet with
  | false => exact ⟨rfl, rfl, rfl, rfl, fun _ _ => ⟨rfl, by simp [run], by simp [run]⟩⟩
  | true =>
    cases bucketSet with
    | false => exact ⟨rfl, rfl, rfl, rfl, fun _ _ => ⟨rfl, by simp [run], by simp [run]⟩⟩
    | true =>
      rcases fr with _ | ⟨raw, pfr, ptr⟩
      · exact ⟨rfl, rfl, rfl, rfl, fun _ _ => ⟨rfl, by simp [run], by simp [run]⟩⟩
      · cases hre : raw.isEmpty with
        | true =>
          refine ⟨?_, ?_, ?_, ?_,
            fun _ hc => absurd hc (by simp [hasContracts, hre])⟩ <;>
            cases se <;> simp [run, hre]
        | false =>
          cases hpc : process_contracts raw with
          | none =>
            refine ⟨?_, ?_, ?_, ?_, fun _ _ => ?_⟩ <;> simp [run, hre, hpc]
          | some procs =>
            cases lo <;> cases go <;> cases ro <;> cases se <;> cases bo <;> cases eo <;>
              refine ⟨?_, ?_, ?_, ?_, fun hg hc => ?_⟩ <;>
              simp_all [run, hre, hpc]

theorem C4_witness :
    (run true true c4Env).1 = 1 ∧
    Event.bigqueryInsert ∉ (run true true c4Env).2.1 ∧
    Event.emailSend ∉ (run true true c4Env).2.1 :=
  (C4_sink_failure_policy true true c4Env).2.2.2.2 rfl rfl
